import Mathlib

/-!
# Verification of the collaborative-insight request pipeline

Shallow embedding of the request-classification and phase-orchestration
engine: the Phase-0 scoring rules (`RequestAnalyzer`), the hierarchy /
expert assigner (`ExpertAssigner`), the environment checker with its TTL
cache (`EnvironmentChecker`), the clarification dialog (`Clarifier`), the
output validator (`Validator`) and the session-threaded server handlers.

Texts are modelled as `List Char` (Python strings are sequences of code
points), time as rational minutes, and Python floats as rationals — every
comparison the code performs on scores happens away from binary rounding
boundaries, so rationals are a faithful model of the arithmetic involved.
-/

/-- Python strings are sequences of code points; `in` is substring test. -/
abbrev Str := List Char

/-- Literal helper: a Lean string literal as a `Str`. -/
def lit (s : String) : Str := s.toList

/-- Python `str.lower()` (the texts involved are ASCII or Korean, where
`Char.toLower` agrees with Python). -/
def lower (s : Str) : Str := s.map Char.toLower

/-- Does `s` start with the segment `w`? -/
def startsWithSeg : Str → Str → Bool
  | _, [] => true
  | [], _ :: _ => false
  | c :: cs, w :: ws => (c = w) && startsWithSeg cs ws

/-- Python `w in s` (contiguous substring containment). -/
def hasSub : Str → Str → Bool
  | [], w => w.isEmpty
  | c :: rest, w => startsWithSeg (c :: rest) w || hasSub rest w

/-- Python `any(word in s for word in ws)`. -/
def hasAny (s : Str) (ws : List Str) : Bool := ws.any (fun w => hasSub s w)

/-- Python whitespace test used by `str.split()` / `str.strip()`. -/
def isWs (c : Char) : Bool := c = ' ' || c = '\n' || c = '\t' || c = '\r'

/-- Python `str.strip()`: drop leading and trailing whitespace. -/
def strip (s : Str) : Str :=
  ((s.dropWhile isWs).reverse.dropWhile isWs).reverse

/-- Python `str.split()` (split on whitespace runs, dropping empty parts). -/
def splitWs (s : Str) : List Str :=
  (s.splitOnP isWs).filter (fun w => !w.isEmpty)

/-- Python `s.split(sep)` for the two-character separator `"\n\n"`:
leftmost non-overlapping splitting. -/
def splitNlNl : Str → List Str
  | [] => [[]]
  | '\n' :: '\n' :: rest => [] :: splitNlNl rest
  | c :: rest =>
    match splitNlNl rest with
    | [] => [[c]]
    | p :: ps => (c :: p) :: ps

/-- Python `s.count("\n\n")`: leftmost non-overlapping occurrence count. -/
def countNlNl : Str → Nat
  | '\n' :: '\n' :: rest => countNlNl rest + 1
  | _ :: rest => countNlNl rest
  | [] => 0

/-- Python `s.split(":")[0]`: the segment before the first colon. -/
def beforeColon (s : Str) : Str := s.takeWhile (fun c => c ≠ ':')

/-- Decimal rendering of a natural number, for f-string interpolation. -/
def natStr (n : Nat) : Str := (Nat.repr n).toList

-- ===========================================================================
-- models.py — Phase 0 data model
-- ===========================================================================

/-- models.py `RequestType`. -/
inductive RequestType where
  | TYPE_1
  | TYPE_2
  | TYPE_3
deriving DecidableEq, Repr

/-- models.py `ProcessingMode`. -/
inductive ProcessingMode where
  | SINGLE
  | COLLABORATIVE
  | SINGLE_DEGRADED
deriving DecidableEq, Repr

/-- models.py `ClarityScore`: five boolean indicators. -/
structure ClarityScore where
  specific_situation : Bool
  purpose_stated : Bool
  target_specified : Bool
  background_knowledge : Bool
  scope_defined : Bool
deriving DecidableEq, Repr

/-- models.py `ClarityScore.total_score`: sum of the five booleans. -/
def ClarityScore.total_score (c : ClarityScore) : Nat :=
  c.specific_situation.toNat + c.purpose_stated.toNat + c.target_specified.toNat
    + c.background_knowledge.toNat + c.scope_defined.toNat

/-- models.py `ClarityScore.is_clear`: `total_score >= 4`. -/
def ClarityScore.is_clear (c : ClarityScore) : Bool :=
  4 ≤ c.total_score

/-- models.py `ComplexityScore`: four bounded integer indicators. -/
structure ComplexityScore where
  creativity_needed : Nat := 0
  analysis_needed : Nat := 0
  integration_needed : Nat := 0
  critical_domain : Nat := 0
deriving DecidableEq, Repr

/-- models.py `ComplexityScore.total_score`. -/
def ComplexityScore.total_score (c : ComplexityScore) : Nat :=
  c.creativity_needed + c.analysis_needed + c.integration_needed + c.critical_domain

/-- models.py `ComplexityScore.is_complex`: `total_score >= 4`. -/
def ComplexityScore.is_complex (c : ComplexityScore) : Bool :=
  4 ≤ c.total_score

/-- models.py `Phase0Result`. -/
structure Phase0Result where
  request_type : RequestType
  clarity_score : ClarityScore
  complexity_score : Option ComplexityScore
  confidence : ℚ
  reasoning : Str
deriving DecidableEq, Repr

-- ===========================================================================
-- phases/phase0.py — RequestAnalyzer
-- ===========================================================================

namespace RequestAnalyzer

/-- phase0.py `RequestAnalyzer.analyze_clarity`. -/
def analyze_clarity (user_request : Str) : ClarityScore :=
  let request_lower := lower user_request
  let specific_situation :=
    decide (30 < user_request.length) ||
      hasAny request_lower [lit "에서", lit "때문에", lit "경우", lit "상황", lit "문제",
        lit "when", lit "where", lit "because", lit "situation", lit "problem"]
  let purpose_stated :=
    hasAny request_lower [lit "위해", lit "하려고", lit "목적", lit "목표", lit "원해",
      lit "필요", lit "to", lit "for", lit "want", lit "need", lit "purpose",
      lit "goal", lit "aim"]
  let target_specified :=
    hasAny request_lower [lit "사용자", lit "고객", lit "학생", lit "환자", lit "직원",
        lit "user", lit "customer", lit "student", lit "patient", lit "employee"] ||
      hasAny request_lower [lit "제품", lit "서비스", lit "시스템", lit "앱",
        lit "웹사이트", lit "product", lit "service", lit "system", lit "app",
        lit "website"]
  let background_knowledge :=
    decide (100 < user_request.length) ||
      hasAny request_lower [lit "현재", lit "기존", lit "지금까지", lit "과거",
        lit "currently", lit "existing", lit "current", lit "past"]
  let scope_defined :=
    hasAny request_lower [lit "범위", lit "제한", lit "제외", lit "포함", lit "한정",
      lit "scope", lit "limit", lit "exclude", lit "include", lit "only", lit "just"]
  { specific_situation := specific_situation
    purpose_stated := purpose_stated
    target_specified := target_specified
    background_knowledge := background_knowledge
    scope_defined := scope_defined }

/-- phase0.py `RequestAnalyzer.analyze_complexity`. -/
def analyze_complexity (user_request : Str) : ComplexityScore :=
  let request_lower := lower user_request
  let creativity_needed :=
    if hasAny request_lower [lit "창의", lit "혁신", lit "새로운", lit "독특",
        lit "차별화", lit "creative", lit "innovative", lit "new", lit "unique",
        lit "novel"] then 2
    else if hasAny request_lower [lit "아이디어", lit "idea", lit "concept"] then 1
    else 0
  let analysis_needed :=
    if hasAny request_lower [lit "분석", lit "평가", lit "비교", lit "검토", lit "조사",
        lit "analyze", lit "evaluate", lit "compare", lit "review",
        lit "research"] then 2
    else if hasAny request_lower [lit "확인", lit "check", lit "verify"] then 1
    else 0
  let integration_needed :=
    if hasAny request_lower [lit "통합", lit "결합", lit "종합", lit "합성",
        lit "integrate", lit "combine", lit "synthesize", lit "merge"] then 1
    else 0
  let critical_domain :=
    if hasAny request_lower [lit "법률", lit "의료", lit "금융", lit "안전", lit "보안",
        lit "legal", lit "medical", lit "financial", lit "safety",
        lit "security"] then 2
    else if hasAny request_lower [lit "건강", lit "health", lit "돈", lit "money"] then 1
    else 0
  { creativity_needed := creativity_needed
    analysis_needed := analysis_needed
    integration_needed := integration_needed
    critical_domain := critical_domain }

/-- phase0.py `RequestAnalyzer.calculate_confidence` (the `complexity_score`
parameter of the source is unused by the body and omitted here). -/
def calculate_confidence (clarity_score : ClarityScore) : ℚ :=
  let total := clarity_score.total_score
  if total = 5 ∨ total = 0 then 1
  else if total = 4 ∨ total = 1 then 8/10
  else 6/10

/-- phase0.py `RequestAnalyzer.analyze`. -/
def analyze (user_request : Str) (reclassify_mode : Bool) : Phase0Result :=
  let clarity_score := analyze_clarity user_request
  let is_clear := clarity_score.is_clear
  let complexity_score : Option ComplexityScore :=
    if is_clear || reclassify_mode then some (analyze_complexity user_request) else none
  let confidence := calculate_confidence clarity_score
  if !is_clear && !reclassify_mode then
    { request_type := RequestType.TYPE_3
      clarity_score := clarity_score
      complexity_score := complexity_score
      confidence := confidence
      reasoning := lit "명확성 점수 " ++ natStr clarity_score.total_score
        ++ lit "/5 - 모호한 요청" }
  else if (complexity_score.map ComplexityScore.is_complex).getD false then
    { request_type := RequestType.TYPE_2
      clarity_score := clarity_score
      complexity_score := complexity_score
      confidence := confidence
      reasoning := lit "복잡도 점수 "
        ++ natStr ((complexity_score.map ComplexityScore.total_score).getD 0)
        ++ lit "/7 - 복잡명확" }
  else
    { request_type := RequestType.TYPE_1
      clarity_score := clarity_score
      complexity_score := complexity_score
      confidence := confidence
      reasoning := lit "단순명확 요청" }

end RequestAnalyzer

-- ===========================================================================
-- models.py — Phase 1 data model
-- ===========================================================================

/-- models.py `HierarchyLayer`. -/
inductive HierarchyLayer where
  | DOMAIN
  | SUBDOMAIN
  | CATEGORY
  | TASK
deriving DecidableEq, Repr

/-- Python truthiness of an `Optional[str]` field (`None` and `""` are falsy). -/
def optTruthy (o : Option Str) : Bool :=
  match o with
  | none => false
  | some s => !s.isEmpty

/-- models.py `HierarchyStructure`. -/
structure HierarchyStructure where
  domain : Option Str := none
  subdomain : Option Str := none
  category : Option Str := none
  task : Option Str := none
deriving DecidableEq, Repr

/-- models.py `HierarchyStructure.get_active_layers`. -/
def HierarchyStructure.get_active_layers (h : HierarchyStructure) : List HierarchyLayer :=
  (if optTruthy h.domain then [HierarchyLayer.DOMAIN] else [])
    ++ (if optTruthy h.subdomain then [HierarchyLayer.SUBDOMAIN] else [])
    ++ (if optTruthy h.category then [HierarchyLayer.CATEGORY] else [])
    ++ (if optTruthy h.task then [HierarchyLayer.TASK] else [])

/-- models.py `Expert`. -/
structure Expert where
  name : Str
  layers : List HierarchyLayer
  expertise : Str
  assigned_llm : Option Str := none
deriving DecidableEq, Repr

/-- models.py `Phase1Result`. -/
structure Phase1Result where
  hierarchy : HierarchyStructure
  experts : List Expert
  processing_mode : ProcessingMode
  llm_used : List Str
  zen_mcp_status : Str
deriving DecidableEq, Repr

-- ===========================================================================
-- phases/phase1.py — ExpertAssigner
-- ===========================================================================

namespace ExpertAssigner

/-- phase1.py `ExpertAssigner.detect_hierarchy`. -/
def detect_hierarchy (user_request : Str) : HierarchyStructure :=
  let request_lower := lower user_request
  { domain :=
      if hasAny request_lower [lit "분야", lit "영역", lit "산업", lit "업계",
          lit "도메인", lit "field", lit "domain", lit "industry", lit "sector"] then
        some (lit "Detected Domain")
      else none
    subdomain :=
      if hasAny request_lower [lit "세부", lit "하위", lit "전문", lit "특정",
          lit "specific", lit "specialized", lit "sub"] then
        some (lit "Detected Subdomain")
      else none
    category :=
      if hasAny request_lower [lit "카테고리", lit "유형", lit "종류", lit "분류",
          lit "category", lit "type", lit "kind", lit "class"] then
        some (lit "Detected Category")
      else none
    task :=
      if hasAny request_lower [lit "작업", lit "태스크", lit "할일", lit "해야",
          lit "task", lit "work", lit "job", lit "do"] then
        some (lit "Detected Task")
      else none }

/-- phase1.py `ExpertAssigner.assign_experts` (the `processing_mode`
parameter of the source is unused by the body and omitted here). -/
def assign_experts (hierarchy : HierarchyStructure) : List Expert :=
  let active_layers := hierarchy.get_active_layers
  if active_layers.isEmpty then
    [{ name := lit "General Expert", layers := [],
       expertise := lit "General problem solving" }]
  else
    (if active_layers.contains HierarchyLayer.DOMAIN then
      [{ name := lit "Domain Expert", layers := [HierarchyLayer.DOMAIN],
         expertise := lit "Expertise in "
           ++ ((hierarchy.domain).getD (lit "None")) }]
    else [])
    ++ (if active_layers.contains HierarchyLayer.SUBDOMAIN then
      [{ name := lit "Subdomain Specialist", layers := [HierarchyLayer.SUBDOMAIN],
         expertise := lit "Specialized in "
           ++ ((hierarchy.subdomain).getD (lit "None")) }]
    else [])
    ++ (if active_layers.contains HierarchyLayer.CATEGORY then
      [{ name := lit "Category Expert", layers := [HierarchyLayer.CATEGORY],
         expertise := lit "Expert in "
           ++ ((hierarchy.category).getD (lit "None")) }]
    else [])
    ++ (if active_layers.contains HierarchyLayer.TASK then
      [{ name := lit "Task Specialist", layers := [HierarchyLayer.TASK],
         expertise := lit "Specialized in "
           ++ ((hierarchy.task).getD (lit "None")) }]
    else [])

/-- phase1.py `ExpertAssigner.determine_processing_mode`. -/
def determine_processing_mode (complexity_score : Nat) (expert_count : Nat) :
    ProcessingMode :=
  if complexity_score ≤ 3 ∨ expert_count = 1 then ProcessingMode.SINGLE
  else ProcessingMode.COLLABORATIVE

/-- phase1.py `ExpertAssigner.assign`.  Note that the source passes the
number of *active layers* (not the number of experts) to
`determine_processing_mode`. -/
def assign (user_request : Str) (complexity_score : Nat) (llm_used : Option (List Str)) :
    Phase1Result :=
  let hierarchy := detect_hierarchy user_request
  let active_layer_count := hierarchy.get_active_layers.length
  let processing_mode := determine_processing_mode complexity_score active_layer_count
  let experts := assign_experts hierarchy
  let llms := llm_used.getD [lit "claude"]
  let assigned := if llms.isEmpty then lit "claude" else llms.headD (lit "claude")
  let experts := experts.map (fun e => { e with assigned_llm := some assigned })
  { hierarchy := hierarchy
    experts := experts
    processing_mode := processing_mode
    llm_used := llms
    zen_mcp_status := lit "Not integrated yet" }

end ExpertAssigner

-- ===========================================================================
-- phases/phase1_5.py — EnvironmentChecker
-- ===========================================================================

/-- The per-phase execution mode dictionary built by
`EnvironmentChecker._determine_execution_mode`. -/
structure ExecutionModeInfo where
  phase2 : Str
  phase4 : Str
  description : Str
deriving DecidableEq, Repr

/-- The static cost table built by
`EnvironmentChecker._calculate_estimated_costs`. -/
structure EstimatedCosts where
  type1 : Str
  type1_description : Str
  type2 : Str
  type2_description : Str
  type3 : Str
  type3_description : Str
  note : Str
deriving DecidableEq, Repr

/-- The result dictionary built by `EnvironmentChecker.check_environment`
(`checked_at` is an ISO timestamp in the source, modelled as rational
minutes). -/
structure EnvResult where
  zen_mcp_connected : Bool
  zen_mcp_message : Str
  api_count : Nat
  available_apis : List Str
  execution_mode : ExecutionModeInfo
  estimated_costs : EstimatedCosts
  cache_enabled : Bool
  cache_ttl_minutes : Nat
  checked_at : ℚ
deriving DecidableEq, Repr

/-- The process environment probed by
`EnvironmentChecker._count_available_apis`: which of the four API-key
environment variables are set. -/
structure ApiEnv where
  anthropic : Bool
  openai : Bool
  gemini : Bool
  grok : Bool
deriving DecidableEq, Repr

/-- The class-level cache `EnvironmentChecker._cache`, keyed by session id. -/
def EnvCache := Str → Option EnvResult

namespace EnvironmentChecker

/-- phase1_5.py `EnvironmentChecker._cache_ttl` (5 minutes). -/
def cache_ttl : ℚ := 5

/-- phase1_5.py `EnvironmentChecker._check_zen_mcp`: the source sets
`is_mcp_environment = True` unconditionally, so the connected branch is
always taken. -/
def check_zen_mcp : Bool × Str :=
  (true, lit "✅ Zen MCP 연결 성공 - Fallback 모드 사용 가능")

/-- phase1_5.py `EnvironmentChecker._count_available_apis`. -/
def count_available_apis (env : ApiEnv) : Nat × List Str :=
  let available :=
    (if env.anthropic then [lit "claude"] else [])
      ++ (if env.openai then [lit "gpt"] else [])
      ++ (if env.gemini then [lit "gemini"] else [])
      ++ (if env.grok then [lit "grok"] else [])
  (available.length, available)

/-- phase1_5.py `EnvironmentChecker._determine_execution_mode`. -/
def determine_execution_mode (api_count : Nat) (zen_connected : Bool) :
    ExecutionModeInfo :=
  if api_count = 0 then
    if zen_connected then
      { phase2 := lit "단독", phase4 := lit "단독",
        description := lit "API 없음 → Zen MCP Fallback (단독 LLM 모드)" }
    else
      { phase2 := lit "불가", phase4 := lit "불가",
        description := lit "API 없음 & Zen MCP 없음 → 실행 불가" }
  else if 1 ≤ api_count ∧ api_count ≤ 4 then
    { phase2 := lit "다중", phase4 := lit "다중",
      description := lit "API " ++ natStr api_count ++ lit "개 → 다중 LLM 협업 모드" }
  else
    { phase2 := lit "다중", phase4 := lit "다중",
      description := lit "API " ++ natStr api_count
        ++ lit "개 → 최적화된 다중 LLM 모드" }

/-- phase1_5.py `EnvironmentChecker._calculate_estimated_costs`. -/
def calculate_estimated_costs : EstimatedCosts :=
  { type1 := lit "$0.5-2"
    type1_description := lit "단순 명확 (Phase 0→1→1.5→2→4→6)"
    type2 := lit "$2-10"
    type2_description := lit "복잡 명확 (Phase 0→1→1.5→2→4→5→6→7)"
    type3 := lit "$5-20"
    type3_description := lit "모호 (Phase 0→1→1.5→2→3→재분류→...)"
    note := lit "실제 비용은 프롬프트 길이와 모델에 따라 달라집니다" }

/-- phase1_5.py `EnvironmentChecker._get_cached_result`: a fresh entry
(younger than the TTL) is returned as is; an expired entry is deleted from
the cache.  Returns the lookup outcome and the possibly-updated cache. -/
def get_cached_result (cache : EnvCache) (session_id : Str) (now : ℚ) :
    Option EnvResult × EnvCache :=
  match cache session_id with
  | some cached =>
    if now - cached.checked_at < cache_ttl then
      (some cached, cache)
    else
      (none, fun k => if k = session_id then none else cache k)
  | none => (none, cache)

/-- phase1_5.py `EnvironmentChecker._cache_result`. -/
def cache_result (cache : EnvCache) (session_id : Str) (result : EnvResult) :
    EnvCache :=
  fun k => if k = session_id then some result else cache k

/-- phase1_5.py: the fresh-probe part of `check_environment` (steps 1–4 of
the source and the result dictionary), run on a cache miss. -/
def compute_snapshot (now : ℚ) (env : ApiEnv) : EnvResult :=
  let zen := check_zen_mcp
  let counted := count_available_apis env
  let execution_mode := determine_execution_mode counted.1 zen.1
  { zen_mcp_connected := zen.1
    zen_mcp_message := zen.2
    api_count := counted.1
    available_apis := counted.2
    execution_mode := execution_mode
    estimated_costs := calculate_estimated_costs
    cache_enabled := true
    cache_ttl_minutes := 5
    checked_at := now }

/-- phase1_5.py `EnvironmentChecker.check_environment`: cache lookup, then on
a miss a fresh probe of the environment, cached before being returned. -/
def check_environment (cache : EnvCache) (session_id : Str) (now : ℚ)
    (env : ApiEnv) : EnvResult × EnvCache :=
  match get_cached_result cache session_id now with
  | (some cached, cache') => (cached, cache')
  | (none, cache') =>
    let result := compute_snapshot now env
    (result, cache_result cache' session_id result)

end EnvironmentChecker

-- ===========================================================================
-- models.py — Phase 3 data model (revised definitions at the end of the file)
-- ===========================================================================

/-- models.py `ClarificationQuestion` (revised definition). -/
structure ClarificationQuestion where
  question : Str
  category : Str
  priority : Nat
  context : Str := []
deriving DecidableEq, Repr

/-- models.py `ClarificationResponse` (revised definition). -/
structure ClarificationResponse where
  question_id : Str
  answer : Str
  satisfied : Bool := false
deriving DecidableEq, Repr

/-- models.py `Phase3Result` (revised definition; the free-form `metadata`
dictionary carries no decision logic and is not modelled). -/
structure Phase3Result where
  questions : List ClarificationQuestion
  responses : List ClarificationResponse
  clarification_needed : Bool
deriving DecidableEq, Repr

-- ===========================================================================
-- phases/phase3.py — Clarifier
-- ===========================================================================

/-- The slice of the Phase-2 data dictionary that
`Clarifier._identify_missing_areas_from_phase2` inspects:
`metadata.tot_synthesis.key_insights`, a list of dictionaries mapping a
level key to a list of thought strings. -/
structure Phase2Data where
  key_insights : List (List (Str × List Str))
deriving DecidableEq, Repr

/-- The outcome reported by `Clarifier.check_clarification_complete`.  The
source renders these as Korean f-strings; the constructors carry the
interpolated values. -/
inductive CompletionReason where
  | need_minimum (current : Nat)
  | satisfaction_reached (rate : ℚ)
  | max_iterations_reached (iteration : Nat)
  | continuing (rate : ℚ)
deriving DecidableEq, Repr

namespace Clarifier

/-- phase3.py `Clarifier.MAX_ITERATIONS`. -/
def MAX_ITERATIONS : Nat := 10

/-- phase3.py: the ordered `all_areas` list of
`_identify_missing_areas_from_phase2`. -/
def all_areas : List Str :=
  [lit "목적", lit "범위", lit "제약사항", lit "기대_산출물",
   lit "대상_사용자", lit "배경_정보", lit "우선순위", lit "일정"]

/-- phase3.py: is `area` mentioned in any thought of any key insight? -/
def area_covered (d : Phase2Data) (area : Str) : Bool :=
  d.key_insights.any (fun insight =>
    insight.any (fun kv => kv.2.any (fun thought => hasSub thought area)))

/-- phase3.py `Clarifier._identify_missing_areas_from_phase2` (the
`user_request` parameter of the source is unused by the body and omitted
here). -/
def identify_missing_areas_from_phase2 (phase2_data : Option Phase2Data)
    (answered_categories : List Str) : List Str :=
  all_areas.filter (fun area =>
    !(answered_categories.contains area) &&
      match phase2_data with
      | some d => !(area_covered d area)
      | none => true)

/-- phase3.py: the question template table of
`_create_question_with_choices`: (question, choices, category, priority). -/
def question_template (area : Str) : Option (Str × List Str × Str × Nat) :=
  if area = lit "목적" then
    some (lit "이 작업의 주요 목적은 무엇인가요?",
      [lit "1. 새로운 기능/서비스 개발", lit "2. 기존 시스템 개선/최적화",
       lit "3. 문제 해결/버그 수정"], lit "Goal", 10)
  else if area = lit "범위" then
    some (lit "작업 범위를 어느 정도로 설정하시겠습니까?",
      [lit "1. 최소 기능만 (MVP)", lit "2. 핵심 기능 + 주요 확장",
       lit "3. 완전한 기능 구현"], lit "Scope", 9)
  else if area = lit "제약사항" then
    some (lit "주요 제약사항이나 고려사항이 있나요?",
      [lit "1. 예산/비용 제한", lit "2. 기술 스택 제한",
       lit "3. 일정/시간 제약"], lit "Constraints", 8)
  else if area = lit "기대_산출물" then
    some (lit "최종 산출물의 형태는 무엇인가요?",
      [lit "1. 문서/가이드", lit "2. 코드/프로그램",
       lit "3. 디자인/설계안"], lit "Deliverables", 9)
  else if area = lit "대상_사용자" then
    some (lit "주요 대상 사용자는 누구인가요?",
      [lit "1. 일반 사용자", lit "2. 개발자/기술자",
       lit "3. 비즈니스/관리자"], lit "Target", 8)
  else if area = lit "배경_정보" then
    some (lit "현재 상황이나 배경에 대해 설명해주세요.",
      [lit "1. 신규 프로젝트 시작", lit "2. 기존 프로젝트 확장",
       lit "3. 문제 상황 해결"], lit "Context", 7)
  else if area = lit "우선순위" then
    some (lit "가장 중요한 요소는 무엇인가요?",
      [lit "1. 품질/완성도", lit "2. 속도/일정",
       lit "3. 비용/효율성"], lit "Priority", 7)
  else if area = lit "일정" then
    some (lit "예상 일정이나 마감일이 있나요?",
      [lit "1. 긴급 (1주 이내)", lit "2. 보통 (1개월 이내)",
       lit "3. 여유 (3개월 이상)"], lit "Schedule", 6)
  else none

/-- Python `"\n".join(choices)`. -/
def joinNl : List Str → Str
  | [] => []
  | [c] => c
  | c :: rest => c ++ lit "\n" ++ joinNl rest

/-- phase3.py `Clarifier._create_question_with_choices`. -/
def create_question_with_choices (area : Str) (user_request : Str)
    (iteration : Nat) : ClarificationQuestion :=
  match question_template area with
  | none =>
    { question := area ++ lit "에 대해 더 자세히 알려주세요."
      category := lit "General"
      priority := 5
      context := lit "[반복 " ++ natStr (iteration + 1) ++ lit "/"
        ++ natStr MAX_ITERATIONS ++ lit "] " ++ user_request.take 100 ++ lit "..." }
  | some (question, choices, category, priority) =>
    { question := question
      category := category
      priority := priority
      context := lit "[반복 " ++ natStr (iteration + 1) ++ lit "/"
        ++ natStr MAX_ITERATIONS ++ lit "]\n요청: " ++ user_request.take 80
        ++ lit "...\n\n선택지:\n" ++ joinNl choices
        ++ lit "\n\n(번호 선택 또는 직접 입력 가능)" }

/-- phase3.py `Clarifier.generate_next_question`. -/
def generate_next_question (user_request : Str)
    (phase2_data : Option Phase2Data)
    (previous_answers : List ClarificationResponse)
    (iteration : Nat) : Option ClarificationQuestion :=
  if MAX_ITERATIONS ≤ iteration then none
  else
    let answered_categories :=
      previous_answers.map (fun ans => beforeColon ans.question_id)
    let missing_areas :=
      identify_missing_areas_from_phase2 phase2_data answered_categories
    match missing_areas with
    | [] => none
    | next_area :: _ =>
      some (create_question_with_choices next_area user_request iteration)

/-- phase3.py `Clarifier.process_answer`. -/
def process_answer (question : ClarificationQuestion) (user_answer : Str)
    (iteration : Nat) : ClarificationResponse :=
  let is_sufficient := decide (5 < (strip user_answer).length)
  { question_id := question.category ++ lit ":" ++ natStr iteration
    answer := user_answer
    satisfied := is_sufficient }

/-- phase3.py `Clarifier.check_clarification_complete`. -/
def check_clarification_complete (collected_answers : List ClarificationResponse)
    (iteration : Nat) : Bool × CompletionReason :=
  if collected_answers.length < 3 then
    (false, CompletionReason.need_minimum collected_answers.length)
  else
    let satisfied_count := (collected_answers.filter (·.satisfied)).length
    let satisfaction_rate : ℚ := satisfied_count / collected_answers.length
    if 8/10 ≤ satisfaction_rate then
      (true, CompletionReason.satisfaction_reached satisfaction_rate)
    else if MAX_ITERATIONS - 1 ≤ iteration then
      (true, CompletionReason.max_iterations_reached iteration)
    else
      (false, CompletionReason.continuing satisfaction_rate)

end Clarifier

-- ===========================================================================
-- models.py — Phase 7 data model (revised definitions at the end of the file)
-- ===========================================================================

/-- models.py `ValidationLevel`. -/
inductive ValidationLevel where
  | CRITICAL
  | HIGH
  | MEDIUM
  | LOW
deriving DecidableEq, Repr

/-- models.py `ValidationCheck` (the wall-clock `timestamp` field carries no
decision logic and is not modelled). -/
structure ValidationCheck where
  check_name : Str
  level : ValidationLevel
  passed : Bool
  score : ℚ
  issues : List Str := []
deriving DecidableEq, Repr

/-- models.py `QualityMetrics`. -/
structure QualityMetrics where
  overall_score : ℚ
  completeness : ℚ
  accuracy : ℚ
  consistency : ℚ
  usability : ℚ
  confidence : ℚ
deriving DecidableEq, Repr

/-- models.py `ValidationResult` (revised definition; the wall-clock
`validated_at` field is not modelled). -/
structure ValidationResult where
  passed : Bool
  checks : List ValidationCheck
  issues : List Str
  severity : Str
deriving DecidableEq, Repr

/-- models.py `Phase7Result` (revised definition; the free-form `metadata`
dictionary carries no decision logic and is not modelled). -/
structure Phase7Result where
  validation_result : ValidationResult
  quality_metrics : QualityMetrics
  improvements : List Str
deriving DecidableEq, Repr

-- ===========================================================================
-- phases/phase7.py — Validator
-- ===========================================================================

namespace Validator

/-- phase7.py: the improvement suggestion emitted for completeness. -/
def msg_completeness : Str :=
  lit "완성도를 높이기 위해 누락된 섹션을 추가하거나 기존 내용을 보강하세요."

/-- phase7.py: the improvement suggestion emitted for accuracy. -/
def msg_accuracy : Str :=
  lit "원본 요청의 주요 키워드와 의도를 더 명확히 반영하세요."

/-- phase7.py: the improvement suggestion emitted for consistency. -/
def msg_consistency : Str :=
  lit "문단 구조와 스타일을 일관되게 유지하세요."

/-- phase7.py: the improvement suggestion emitted for usability. -/
def msg_usability : Str :=
  lit "결과를 더 구조화하고 읽기 쉽게 포맷팅하세요."

/-- phase7.py: the affirming message emitted when no dimension is below its
suggestion threshold. -/
def msg_affirm : Str :=
  lit "검증 결과가 우수합니다! 추가 개선사항이 필요하지 않습니다."

/-- phase7.py `Validator._check_completeness`.  The source only reads
`len(design_document.sections)` when the design document has a `sections`
attribute; the parameter is modelled as that optional section count. -/
def check_completeness (result : Str) (design_sections : Option Nat) :
    ValidationCheck :=
  match design_sections with
  | none =>
    { check_name := lit "완성도", level := ValidationLevel.CRITICAL,
      passed := true, score := 1, issues := [] }
  | some expected_sections =>
    let result_sections := countNlNl result + 1
    if (result_sections : ℚ) < (expected_sections : ℚ) * (7/10) then
      { check_name := lit "완성도", level := ValidationLevel.CRITICAL,
        passed := false,
        score := (result_sections : ℚ) / (expected_sections : ℚ),
        issues := [lit "예상 섹션(" ++ natStr expected_sections
          ++ lit ")의 70% 미만 포함"] }
    else
      { check_name := lit "완성도", level := ValidationLevel.CRITICAL,
        passed := true, score := 1, issues := [] }

/-- phase7.py `Validator._check_accuracy`. -/
def check_accuracy (result : Str) (original_request : Str) : ValidationCheck :=
  let result_str := lower result
  let request_words := splitWs (lower original_request)
  let keywords := (request_words.filter (fun w => 2 < w.length)).take 10
  match keywords with
  | [] =>
    { check_name := lit "정확도", level := ValidationLevel.HIGH,
      passed := true, score := 1, issues := [] }
  | _ :: _ =>
    let matched := (keywords.filter (fun kw => hasSub result_str kw)).length
    let score : ℚ := (matched : ℚ) / (keywords.length : ℚ)
    if score < 1/2 then
      { check_name := lit "정확도", level := ValidationLevel.HIGH,
        passed := false, score := score,
        issues := [lit "요청의 주요 키워드(" ++ natStr keywords.length
          ++ lit "개 중 " ++ natStr matched ++ lit "개만 포함)"] }
    else
      { check_name := lit "정확도", level := ValidationLevel.HIGH,
        passed := true, score := score, issues := [] }

/-- phase7.py `Validator._check_consistency`. -/
def check_consistency (result : Str) : ValidationCheck :=
  let paragraphs := splitNlNl result
  let step1 : ℚ × List Str :=
    if paragraphs.length < 2 then (1 * (8/10), [lit "문단 구조가 부족함"])
    else (1, [])
  let step2 : ℚ × List Str :=
    if paragraphs.isEmpty then step1
    else
      let lengths := paragraphs.map List.length
      let avg_length : ℚ := ((lengths.sum : ℚ)) / (lengths.length : ℚ)
      let unbalanced := (lengths.filter (fun l =>
        (l : ℚ) < avg_length * (3/10) ∨ avg_length * 3 < (l : ℚ))).length
      if (paragraphs.length : ℚ) * (3/10) < (unbalanced : ℚ) then
        (step1.1 * (9/10), step1.2 ++ [lit "문단 길이 불균형"])
      else step1
  { check_name := lit "일관성", level := ValidationLevel.MEDIUM,
    passed := step2.2.isEmpty, score := step2.1, issues := step2.2 }

/-- phase7.py `Validator._check_usability`. -/
def check_usability (result : Str) : ValidationCheck :=
  let step1 : Bool × ℚ × List Str :=
    if result.length < 100 then
      (false, (result.length : ℚ) / 100, [lit "결과가 너무 짧음 (최소 100자 필요)"])
    else (true, 1, [])
  let has_structure :=
    hasSub result (lit "\n#") || hasSub result (lit "\n-")
      || hasSub result (lit "\n1.")
  let step2 : Bool × ℚ × List Str :=
    if !has_structure then
      (step1.1, step1.2.1 * (9/10), step1.2.2 ++ [lit "구조화된 포맷 부족"])
    else step1
  { check_name := lit "실용성", level := ValidationLevel.MEDIUM,
    passed := step2.1, score := step2.2.1, issues := step2.2.2 }

/-- phase7.py `Validator._perform_checks`. -/
def perform_checks (result : Str) (original_request : Str)
    (design_sections : Option Nat) : List ValidationCheck :=
  [check_completeness result design_sections,
   check_accuracy result original_request,
   check_consistency result,
   check_usability result]

/-- phase7.py: the severity-level weight table of `_calculate_metrics`. -/
def level_weight : ValidationLevel → ℚ
  | ValidationLevel.CRITICAL => 1
  | ValidationLevel.HIGH => 8/10
  | ValidationLevel.MEDIUM => 6/10
  | ValidationLevel.LOW => 4/10

/-- phase7.py `Validator._calculate_metrics`. -/
def calculate_metrics (checks : List ValidationCheck) : QualityMetrics :=
  let overall_score : ℚ :=
    if checks.isEmpty then 0
    else ((checks.map ValidationCheck.score).sum) / (checks.length : ℚ)
  let weighted_sum : ℚ :=
    (checks.map (fun c => c.score * level_weight c.level)).sum
  let weighted_score : ℚ :=
    if checks.isEmpty then weighted_sum else weighted_sum / (checks.length : ℚ)
  let named (name : Str) : ℚ :=
    ((checks.find? (fun c => c.check_name = name)).map ValidationCheck.score).getD 0
  { overall_score := overall_score
    completeness := named (lit "완성도")
    accuracy := named (lit "정확도")
    consistency := named (lit "일관성")
    usability := named (lit "실용성")
    confidence := weighted_score }

/-- phase7.py `Validator._create_validation_result`. -/
def create_validation_result (checks : List ValidationCheck)
    (metrics : QualityMetrics) : ValidationResult :=
  let passed := checks.all ValidationCheck.passed
  let all_issues := (checks.map ValidationCheck.issues).flatten
  let severity :=
    if 9/10 ≤ metrics.overall_score then lit "low"
    else if 7/10 ≤ metrics.overall_score then lit "medium"
    else if 1/2 ≤ metrics.overall_score then lit "high"
    else lit "critical"
  { passed := passed, checks := checks, issues := all_issues,
    severity := severity }

/-- phase7.py `Validator._suggest_improvements`. -/
def suggest_improvements (metrics : QualityMetrics) : List Str :=
  let suggestions :=
    (if metrics.completeness < 8/10 then [msg_completeness] else [])
      ++ (if metrics.accuracy < 7/10 then [msg_accuracy] else [])
      ++ (if metrics.consistency < 8/10 then [msg_consistency] else [])
      ++ (if metrics.usability < 8/10 then [msg_usability] else [])
  if suggestions.isEmpty then [msg_affirm] else suggestions

/-- phase7.py `Validator.validate_result`. -/
def validate_result (result : Str) (original_request : Str)
    (design_sections : Option Nat) : Phase7Result :=
  let validation_checks := perform_checks result original_request design_sections
  let quality_metrics := calculate_metrics validation_checks
  let validation_result := create_validation_result validation_checks quality_metrics
  let improvements := suggest_improvements quality_metrics
  { validation_result := validation_result
    quality_metrics := quality_metrics
    improvements := improvements }

end Validator

-- ===========================================================================
-- models.py — remaining phase results and the workflow state
-- ===========================================================================

/-- models.py `SourceInfo`.  phase2.py constructs every source with a
`relevance_score` value as well (read back by server.py's
`gather_information` output), though that field is missing from the
revised models.py definition; it is modelled as an extra field here. -/
structure SourceInfo where
  url : Str
  title : Str
  published_date : Option Str := none
  reliability_score : ℚ
  relevance_score : ℚ := 0
  is_official : Bool := false
deriving DecidableEq, Repr

/-- models.py `ResearchItem` (revised definition). -/
structure ResearchItem where
  query : Str
  category : Str
  priority : Nat
  keywords : List Str := []
deriving DecidableEq, Repr

/-- models.py `Phase2Result` (revised definition; the free-form `metadata`
dictionary is not modelled).  server.py additionally assigns
`execution_mode` and `llms_used` attributes onto the result object, which
are modelled as extra fields here. -/
structure Phase2Result where
  research_items : List ResearchItem
  sources : List SourceInfo
  execution_mode : Str := lit "단독"
  llms_used : List Str := []
deriving DecidableEq, Repr

/-- models.py `QualityLevel`. -/
inductive QualityLevel where
  | LV1_STANDARD
  | LV2_CRITICAL
deriving DecidableEq, Repr

/-- models.py `DesignSection`. -/
structure DesignSection where
  section_name : Str
  content : Str
  citations : List Str := []
deriving DecidableEq, Repr

/-- models.py `DesignDocument` (the wall-clock `creation_date` field is not
modelled). -/
structure DesignDocument where
  title : Str
  quality_level : QualityLevel
  sections : List DesignSection
  references : List SourceInfo
  revision_count : Nat := 0
deriving DecidableEq, Repr

/-- models.py `Phase4Result` (the free-form `collaboration_records` and
`user_interventions` lists are not modelled).  phase4.py constructs the
result with an `execution_mode` value (which server.py also assigns),
modelled as an extra field here. -/
structure Phase4Result where
  design_document : DesignDocument
  execution_mode : Str := lit "단독"
deriving DecidableEq, Repr

/-- models.py `LLMSelection` (free-form capability and reason lists are not
modelled). -/
structure LLMSelection where
  model_id : Str
  provider : Str
  role : Str
  confidence : ℚ
deriving DecidableEq, Repr

/-- models.py `Phase5Result` (revised definition; `optimized_prompts` and
`metadata` are free-form dictionaries and not modelled). -/
structure Phase5Result where
  selections : List LLMSelection
deriving DecidableEq, Repr

/-- Modelled from the spec: `Phase1_5Result` is imported by server.py from
models.py but is missing from src/models.py.  The spec's
`EnvironmentSnapshot` carries the same fields as the result dictionary of
`EnvironmentChecker.check_environment` (server.py builds the value as
`Phase1_5Result(**result)`), so the snapshot structure `EnvResult` stands
in for it. -/
def Phase1_5Result := EnvResult

/-- models.py `WorkflowState`.  Timestamps are rational minutes.  The
`started_at` and `timeout_minutes` fields are modelled from the spec: they
are read by server.py (`check_timeout`, `get_workflow_status`) but missing
from src/models.py, which the spec describes as the session's start
timestamp and its timeout budget of 30 minutes.  `phase1_5_result` is
likewise assigned by server.py without being declared in src/models.py;
the spec gives the session one optional result slot per phase.
`all_questions` and `collected_answers` are `Optional` lists defaulting to
`None` in the source and are only read on paths where they have been
assigned; they are modelled as plain lists defaulting to `[]`, which has
the same truthiness behaviour. -/
structure WorkflowState where
  session_id : Str
  user_request : Str
  current_phase : ℚ := 0
  phase0_result : Option Phase0Result := none
  phase1_result : Option Phase1Result := none
  phase1_5_result : Option EnvResult := none
  phase2_result : Option Phase2Result := none
  phase3_result : Option Phase3Result := none
  phase4_result : Option Phase4Result := none
  phase5_result : Option Phase5Result := none
  phase7_result : Option Phase7Result := none
  all_questions : List ClarificationQuestion := []
  current_question_index : Nat := 0
  collected_answers : List ClarificationResponse := []
  waiting_for_answer : Bool := false
  created_at : ℚ
  updated_at : ℚ
  started_at : ℚ
  timeout_minutes : ℚ := 30
deriving DecidableEq, Repr

/-- models.py `WorkflowState.update_timestamp`. -/
def WorkflowState.update_timestamp (w : WorkflowState) (now : ℚ) : WorkflowState :=
  { w with updated_at := now }

/-- Modelled from the spec: `WorkflowState.is_timeout` is called by
server.py but missing from src/models.py.  Spec §4.5: on every phase entry
`elapsed = now − started_at` is checked, and the session is timed out when
`elapsed > timeout_minutes` (default 30). -/
def WorkflowState.is_timeout (w : WorkflowState) (now : ℚ) : Bool :=
  w.timeout_minutes < now - w.started_at

-- ===========================================================================
-- server.py — session map and tool handlers
-- ===========================================================================

/-- server.py: the module-level `sessions` dictionary, keyed by session id. -/
def Sessions := Str → Option WorkflowState

/-- Storing a workflow under its session id. -/
def Sessions.store (sessions : Sessions) (sid : Str) (w : WorkflowState) :
    Sessions :=
  fun k => if k = sid then some w else sessions k

/-- The error outcomes of the server handlers.  All constructors but the
last identify error dictionaries returned by the handlers (by their
message strings); `create_design_type_error` is the uncaught Python
`TypeError` raised inside `create_design` — server.py calls
`DesignGenerator.create_design` without the required positional
`phase2_result` parameter declared in phase4.py, so argument binding
fails and the exception propagates out of the handler. -/
inductive ServerError where
  | session_not_found
  | session_timeout
  | phase0_not_completed
  | phase1_not_completed
  | clarification_pending
  | previous_phases_not_completed
  | phase4_not_completed
  | design_not_created
  | no_question_waiting
  | all_questions_answered
  | create_design_type_error
deriving DecidableEq, Repr

namespace Server

/-- Looking up the session id just stored yields the stored workflow. -/
theorem Sessions.store_self (sessions : Sessions) (sid : Str)
    (w : WorkflowState) : (sessions.store sid w) sid = some w := by
  simp [Sessions.store]

/-- server.py `check_timeout`: reports a missing session or a timed-out
session, `none` when the call may proceed. -/
def check_timeout (sessions : Sessions) (session_id : Str) (now : ℚ) :
    Option ServerError :=
  match sessions session_id with
  | none => some ServerError.session_not_found
  | some workflow =>
    if workflow.is_timeout now then some ServerError.session_timeout else none

/-- server.py `analyze_request` (Phase 0): classifies the request and stores
a brand-new `WorkflowState` under the session id.  `generated_id` stands
for the fresh timestamp-derived id used when no (truthy) session id is
supplied.  Returns the session id used and the updated session map. -/
def analyze_request (sessions : Sessions) (user_request : Str)
    (session_id : Option Str) (generated_id : Str) (now : ℚ) :
    Str × Sessions :=
  let result := RequestAnalyzer.analyze user_request false
  let sid := if optTruthy session_id then session_id.getD [] else generated_id
  let workflow_state : WorkflowState :=
    { session_id := sid
      user_request := user_request
      current_phase := 0
      phase0_result := some result
      created_at := now
      updated_at := now
      started_at := now }
  (sid, sessions.store sid workflow_state)

/-- server.py `assign_experts` (Phase 1). -/
def assign_experts (sessions : Sessions) (session_id : Str) (now : ℚ) :
    Except ServerError Sessions :=
  match check_timeout sessions session_id now with
  | some e => Except.error e
  | none =>
  match sessions session_id with
  | none => Except.error ServerError.session_not_found
  | some workflow =>
    if workflow.phase0_result.isNone then
      Except.error ServerError.phase0_not_completed
    else if workflow.waiting_for_answer then
      Except.error ServerError.clarification_pending
    else
      let complexity :=
        ((workflow.phase0_result.bind Phase0Result.complexity_score).map
          ComplexityScore.total_score).getD 0
      let result := ExpertAssigner.assign workflow.user_request complexity none
      let workflow := { workflow with
        phase1_result := some result, current_phase := 1, updated_at := now }
      Except.ok (sessions.store session_id workflow)

/-- server.py `check_environment` (Phase 1.5): runs the environment checker
(threading its TTL cache) and stores the snapshot as the phase-1.5 result. -/
def check_environment (sessions : Sessions) (cache : EnvCache)
    (session_id : Str) (now : ℚ) (env : ApiEnv) :
    Except ServerError (Sessions × EnvCache) :=
  match check_timeout sessions session_id now with
  | some e => Except.error e
  | none =>
  match sessions session_id with
  | none => Except.error ServerError.session_not_found
  | some workflow =>
    if workflow.phase1_result.isNone then
      Except.error ServerError.phase1_not_completed
    else
      let checked := EnvironmentChecker.check_environment cache session_id now env
      let workflow := { workflow with
        phase1_5_result := some checked.1, current_phase := 3/2,
        updated_at := now }
      Except.ok (sessions.store session_id workflow, checked.2)

/-- server.py `gather_information` (Phase 2).  The awaited external
research computation is taken as the oracle parameter `gathered`; the
handler sets its execution mode from the phase-1.5 snapshot and stores it. -/
def gather_information (sessions : Sessions) (session_id : Str) (now : ℚ)
    (gathered : Phase2Result) : Except ServerError Sessions :=
  match check_timeout sessions session_id now with
  | some e => Except.error e
  | none =>
  match sessions session_id with
  | none => Except.error ServerError.session_not_found
  | some workflow =>
    if workflow.phase1_result.isNone then
      Except.error ServerError.phase1_not_completed
    else
      let execution_mode :=
        match workflow.phase1_5_result with
        | some p => p.execution_mode.phase2
        | none => lit "단독"
      let llms_used :=
        match workflow.phase1_5_result with
        | some p => p.available_apis
        | none => []
      let result := { gathered with
        execution_mode := execution_mode, llms_used := llms_used }
      let workflow := { workflow with
        phase2_result := some result, current_phase := 2, updated_at := now }
      Except.ok (sessions.store session_id workflow)

/-- The non-error outcomes of `clarify_user_intent`. -/
inductive ClarifyStatus where
  | no_clarification_needed
  | all_questions_answered
  | waiting_for_answer (question : ClarificationQuestion)
deriving DecidableEq, Repr

/-- server.py `clarify_user_intent` (Phase 3).  The source calls
`Clarifier.generate_questions`, which does not exist in
src/phases/phase3.py; its output is taken as the oracle parameter
`generated`. -/
def clarify_user_intent (sessions : Sessions) (session_id : Str) (now : ℚ)
    (generated : Phase3Result) :
    Except ServerError (ClarifyStatus × Sessions) :=
  match check_timeout sessions session_id now with
  | some e => Except.error e
  | none =>
  match sessions session_id with
  | none => Except.error ServerError.session_not_found
  | some workflow =>
    if workflow.phase0_result.isNone then
      Except.error ServerError.phase0_not_completed
    else
      if workflow.all_questions.isEmpty ∧ ¬generated.clarification_needed then
        Except.ok (ClarifyStatus.no_clarification_needed, sessions)
      else
        let workflow :=
          if workflow.all_questions.isEmpty then
            { workflow with
              all_questions := generated.questions,
              current_question_index := 0,
              collected_answers := [],
              waiting_for_answer := true,
              updated_at := now }
          else workflow
        if workflow.all_questions.length ≤ workflow.current_question_index then
          let workflow := { workflow with
            waiting_for_answer := false, current_phase := 3 }
          Except.ok (ClarifyStatus.all_questions_answered,
            sessions.store session_id workflow)
        else
          let question := workflow.all_questions.getD
            workflow.current_question_index
            { question := [], category := [], priority := 0 }
          Except.ok (ClarifyStatus.waiting_for_answer question,
            sessions.store session_id workflow)

/-- The non-error outcomes of `answer_clarification_question`. -/
inductive AnswerStatus where
  | completed
  | next_question (question : ClarificationQuestion)
deriving DecidableEq, Repr

/-- server.py `answer_clarification_question`: records the answer for the
pending question directly (without going through
`Clarifier.process_answer`): the stored response is keyed by the question
*text* and `satisfied` is `len(answer) > 10` on the raw answer. -/
def answer_clarification_question (sessions : Sessions) (session_id : Str)
    (answer : Str) (now : ℚ) :
    Except ServerError (AnswerStatus × Sessions) :=
  match check_timeout sessions session_id now with
  | some e => Except.error e
  | none =>
  match sessions session_id with
  | none => Except.error ServerError.session_not_found
  | some workflow =>
    if ¬workflow.waiting_for_answer then
      Except.error ServerError.no_question_waiting
    else if workflow.all_questions.length ≤ workflow.current_question_index then
      Except.error ServerError.all_questions_answered
    else
      let current_question := workflow.all_questions.getD
        workflow.current_question_index
        { question := [], category := [], priority := 0 }
      let response : ClarificationResponse :=
        { question_id := current_question.question
          answer := answer
          satisfied := decide (10 < answer.length) }
      let workflow := { workflow with
        collected_answers := workflow.collected_answers ++ [response],
        current_question_index := workflow.current_question_index + 1,
        updated_at := now }
      if workflow.all_questions.length ≤ workflow.current_question_index then
        let workflow := { workflow with
          waiting_for_answer := false
          current_phase := 3
          phase3_result := some
            { questions := workflow.all_questions
              responses := workflow.collected_answers
              clarification_needed := false } }
        Except.ok (AnswerStatus.completed, sessions.store session_id workflow)
      else
        let next := workflow.all_questions.getD
          workflow.current_question_index
          { question := [], category := [], priority := 0 }
        Except.ok (AnswerStatus.next_question next,
          sessions.store session_id workflow)

/-- server.py `create_design` (Phase 4).  The guard only requires the
phase-0 and phase-1 results.  After the guard, the source calls
`DesignGenerator.create_design(user_request, phase0_result, phase1_result,
llm_client=...)`, omitting the required positional `phase2_result`
parameter of phase4.py's `create_design`, so Python raises `TypeError` at
the call site: no design is produced, nothing is stored on the session,
and the handler can never succeed. -/
def create_design (sessions : Sessions) (session_id : Str) (now : ℚ) :
    Except ServerError Sessions :=
  match check_timeout sessions session_id now with
  | some e => Except.error e
  | none =>
  match sessions session_id with
  | none => Except.error ServerError.session_not_found
  | some workflow =>
    if workflow.phase0_result.isNone ∨ workflow.phase1_result.isNone then
      Except.error ServerError.previous_phases_not_completed
    else
      Except.error ServerError.create_design_type_error

/-- server.py `select_llm` (Phase 5).  The selection computation is taken
as the oracle parameter `selection`.  Note the guard only requires the
phase-4 result.  The modelled success value covers the state mutation
(storing the phase-5 result, advancing the phase); the source's response
building afterwards reads `sel.model_name` and `sel.reason` on the stored
selections, attributes that neither models.py's `LLMSelection` nor the
objects phase5.py constructs possess, so no theorem below asserts that
this handler returns successfully. -/
def select_llm (sessions : Sessions) (session_id : Str) (now : ℚ)
    (selection : Phase5Result) : Except ServerError Sessions :=
  match check_timeout sessions session_id now with
  | some e => Except.error e
  | none =>
  match sessions session_id with
  | none => Except.error ServerError.session_not_found
  | some workflow =>
    if workflow.phase4_result.isNone then
      Except.error ServerError.phase4_not_completed
    else
      let workflow := { workflow with
        phase5_result := some selection, current_phase := 5, updated_at := now }
      Except.ok (sessions.store session_id workflow)

/-- server.py `execute_task` (Phase 6).  The generated artifact is returned
to the caller and not stored; only `current_phase` advances.  Note the
guard only requires the phase-4 result. -/
def execute_task (sessions : Sessions) (session_id : Str) (now : ℚ) :
    Except ServerError Sessions :=
  match check_timeout sessions session_id now with
  | some e => Except.error e
  | none =>
  match sessions session_id with
  | none => Except.error ServerError.session_not_found
  | some workflow =>
    if workflow.phase4_result.isNone then
      Except.error ServerError.design_not_created
    else
      let workflow := { workflow with current_phase := 6, updated_at := now }
      Except.ok (sessions.store session_id workflow)

/-- The status dictionary assembled by `get_workflow_status`. -/
structure StatusInfo where
  current_phase : ℚ
  is_timeout : Bool
  elapsed_minutes : ℚ
  timeout_limit_minutes : ℚ
  phases_completed : List Bool
  waiting_for_answer : Bool
deriving DecidableEq, Repr

/-- server.py `get_workflow_status`: pure status inspection; it performs no
timeout guard and succeeds for any existing session. -/
def get_workflow_status (sessions : Sessions) (session_id : Str) (now : ℚ) :
    Except ServerError StatusInfo :=
  match sessions session_id with
  | none => Except.error ServerError.session_not_found
  | some workflow =>
    Except.ok
      { current_phase := workflow.current_phase
        is_timeout := workflow.is_timeout now
        elapsed_minutes := now - workflow.started_at
        timeout_limit_minutes := workflow.timeout_minutes
        phases_completed :=
          [workflow.phase0_result.isSome, workflow.phase1_result.isSome,
           workflow.phase1_5_result.isSome, workflow.phase2_result.isSome,
           workflow.phase3_result.isSome, workflow.phase4_result.isSome,
           workflow.phase5_result.isSome, workflow.phase7_result.isSome]
        waiting_for_answer := workflow.waiting_for_answer }

end Server

-- ===========================================================================
-- Theorems
-- ===========================================================================

/-- C1: For every request text, classification follows the decision table:
not clear (total < 4) and not reclassifying → Type-3 regardless of
complexity; clear (or reclassifying) and complexity total ≥ 4 → Type-2;
otherwise Type-1.  The `ComplexityScore` is computed exactly when the
request is clear or `reclassify_mode` is set, and is `None` in the Type-3
non-reclassify case. -/
theorem analyze_follows_decision_table (req : Str) (rm : Bool) :
    (RequestAnalyzer.analyze req rm).complexity_score
        = (if (RequestAnalyzer.analyze_clarity req).is_clear || rm then
            some (RequestAnalyzer.analyze_complexity req)
          else none)
    ∧ (RequestAnalyzer.analyze req rm).request_type
        = (if !(RequestAnalyzer.analyze_clarity req).is_clear && !rm then
            RequestType.TYPE_3
          else if 4 ≤ (RequestAnalyzer.analyze_complexity req).total_score then
            RequestType.TYPE_2
          else RequestType.TYPE_1) := by
  unfold RequestAnalyzer.analyze
  cases hc : (RequestAnalyzer.analyze_clarity req).is_clear <;> cases rm <;>
    by_cases hx : 4 ≤ (RequestAnalyzer.analyze_complexity req).total_score <;>
    simp [hc, hx, ComplexityScore.is_complex]

/-- C2: For all 32 combinations of the five boolean clarity indicators,
`ClarityScore.total_score` equals the count of true indicators, `is_clear`
holds iff the total is ≥ 4, and the confidence is exactly 1.0 at total 0
or 5, 0.8 at total 1 or 4, and 0.6 at total 2 or 3. -/
theorem clarity_confidence_table (b1 b2 b3 b4 b5 : Bool) :
    (ClarityScore.mk b1 b2 b3 b4 b5).total_score
        = [b1, b2, b3, b4, b5].count true
    ∧ ((ClarityScore.mk b1 b2 b3 b4 b5).is_clear = true
        ↔ 4 ≤ (ClarityScore.mk b1 b2 b3 b4 b5).total_score)
    ∧ RequestAnalyzer.calculate_confidence (ClarityScore.mk b1 b2 b3 b4 b5)
        = (if (ClarityScore.mk b1 b2 b3 b4 b5).total_score = 0
              ∨ (ClarityScore.mk b1 b2 b3 b4 b5).total_score = 5 then 1
          else if (ClarityScore.mk b1 b2 b3 b4 b5).total_score = 1
              ∨ (ClarityScore.mk b1 b2 b3 b4 b5).total_score = 4 then 8/10
          else 6/10) := by
  cases b1 <;> cases b2 <;> cases b3 <;> cases b4 <;> cases b5 <;>
    simp [RequestAnalyzer.calculate_confidence, ClarityScore.total_score,
      ClarityScore.is_clear]

/-- C3: Once the elapsed time since a session started exceeds its
30-minute budget, that phase-entry call and every subsequent phase call on
the session (at any later time) return the timeout error, while status
inspection still succeeds (and reports the timeout).  The timeout test
itself (`WorkflowState.is_timeout`) is modelled from the spec, being
absent from src/models.py. -/
theorem timed_out_session_rejects_phase_calls
    (sessions : Sessions) (sid : Str) (w : WorkflowState) (now nowL : ℚ)
    (answer : Str) (cache : EnvCache) (env : ApiEnv)
    (gathered : Phase2Result) (generated : Phase3Result)
    (selection : Phase5Result)
    (hs : sessions sid = some w)
    (ht : w.timeout_minutes < now - w.started_at)
    (hle : now ≤ nowL) :
    Server.assign_experts sessions sid nowL
        = Except.error ServerError.session_timeout
    ∧ Server.check_environment sessions cache sid nowL env
        = Except.error ServerError.session_timeout
    ∧ Server.gather_information sessions sid nowL gathered
        = Except.error ServerError.session_timeout
    ∧ Server.clarify_user_intent sessions sid nowL generated
        = Except.error ServerError.session_timeout
    ∧ Server.answer_clarification_question sessions sid answer nowL
        = Except.error ServerError.session_timeout
    ∧ Server.create_design sessions sid nowL
        = Except.error ServerError.session_timeout
    ∧ Server.select_llm sessions sid nowL selection
        = Except.error ServerError.session_timeout
    ∧ Server.execute_task sessions sid nowL
        = Except.error ServerError.session_timeout
    ∧ Server.get_workflow_status sessions sid nowL
        = Except.ok
          { current_phase := w.current_phase
            is_timeout := true
            elapsed_minutes := nowL - w.started_at
            timeout_limit_minutes := w.timeout_minutes
            phases_completed :=
              [w.phase0_result.isSome, w.phase1_result.isSome,
               w.phase1_5_result.isSome, w.phase2_result.isSome,
               w.phase3_result.isSome, w.phase4_result.isSome,
               w.phase5_result.isSome, w.phase7_result.isSome]
            waiting_for_answer := w.waiting_for_answer } := by
  have hto : w.is_timeout nowL = true := by
    simp only [WorkflowState.is_timeout, decide_eq_true_eq]
    linarith
  have hct : Server.check_timeout sessions sid nowL
      = some ServerError.session_timeout := by
    simp [Server.check_timeout, hs, hto]
  refine ⟨?_, ?_, ?_, ?_, ?_, ?_, ?_, ?_, ?_⟩
  · simp [Server.assign_experts, hct]
  · simp [Server.check_environment, hct]
  · simp [Server.gather_information, hct]
  · simp [Server.clarify_user_intent, hct]
  · simp [Server.answer_clarification_question, hct]
  · simp [Server.create_design, hct]
  · simp [Server.select_llm, hct]
  · simp [Server.execute_task, hct]
  · simp [Server.get_workflow_status, hs, hto]

/-- A minimal stored session used to exercise the server handlers. -/
def sampleWorkflow : WorkflowState :=
  { session_id := lit "s"
    user_request := lit "hi"
    created_at := 0
    updated_at := 0
    started_at := 0 }

/-- A session map holding only `sampleWorkflow` under id `"s"`. -/
def sampleSessions : Sessions :=
  fun k => if k = lit "s" then some sampleWorkflow else none

/-- C4 (amended): question generation stops at `MAX_ITERATIONS = 10`, and
the completion check is forced at iteration ≥ `MAX_ITERATIONS − 1`
*provided at least 3 answers have been collected*; with at least 3 answers
it also completes early at a satisfied fraction ≥ 0.80, but with fewer
than 3 answers it always reports incomplete, whatever the iteration. -/
theorem clarification_dialog_bounded :
    (∀ (req : Str) (p2 : Option Phase2Data)
        (prev : List ClarificationResponse) (iter : Nat),
      Clarifier.MAX_ITERATIONS ≤ iter →
      Clarifier.generate_next_question req p2 prev iter = none)
    ∧ (∀ (answers : List ClarificationResponse) (iter : Nat),
        3 ≤ answers.length → Clarifier.MAX_ITERATIONS - 1 ≤ iter →
        (Clarifier.check_clarification_complete answers iter).1 = true)
    ∧ (∀ (answers : List ClarificationResponse) (iter : Nat),
        3 ≤ answers.length →
        8/10 ≤ (((answers.filter (·.satisfied)).length : ℚ) / (answers.length : ℚ)) →
        (Clarifier.check_clarification_complete answers iter).1 = true)
    ∧ (∀ (answers : List ClarificationResponse) (iter : Nat),
        answers.length < 3 →
        (Clarifier.check_clarification_complete answers iter).1 = false) := by
  refine ⟨?_, ?_, ?_, ?_⟩
  · intro req p2 prev iter h
    simp [Clarifier.generate_next_question, h]
  · intro answers iter h3 h9
    simp only [Clarifier.check_clarification_complete]
    rw [if_neg (by omega)]
    by_cases hr : (8:ℚ)/10 ≤
        (((answers.filter (·.satisfied)).length : ℚ) / (answers.length : ℚ))
    · simp [hr]
    · simp [hr, h9]
  · intro answers iter h3 hr
    simp only [Clarifier.check_clarification_complete]
    rw [if_neg (by omega)]
    simp [hr]
  · intro answers iter h3
    simp [Clarifier.check_clarification_complete, h3]

/-- Counterexample for C4 as stated: with an empty answer list the
completion check still reports incomplete at iteration
`MAX_ITERATIONS − 1` (the 3-answer minimum is checked first). -/
theorem check_complete_not_forced_without_minimum :
    Clarifier.check_clarification_complete [] (Clarifier.MAX_ITERATIONS - 1)
      = (false, CompletionReason.need_minimum 0) := rfl

/-- Three collected answers, none satisfied. -/
def unsatAnswers : List ClarificationResponse :=
  [{ question_id := lit "Goal:0", answer := lit "x", satisfied := false },
   { question_id := lit "Scope:1", answer := lit "y", satisfied := false },
   { question_id := lit "Constraints:2", answer := lit "z", satisfied := false }]

/-- Witness for C4: three entirely unsatisfying answers complete at
iteration 9, and no question is generated at iteration 10. -/
theorem clarification_dialog_bounded_witness :
    (Clarifier.check_clarification_complete unsatAnswers 9).1 = true
    ∧ Clarifier.generate_next_question (lit "hi") none [] 10 = none :=
  ⟨clarification_dialog_bounded.2.1 unsatAnswers 9 (by decide) (by decide),
   clarification_dialog_bounded.1 (lit "hi") none [] 10 (by decide)⟩

/-- C5 (amended): `Clarifier.process_answer` stores the response keyed by
the composite key `category:iteration` with `satisfied` true iff the
trimmed answer is strictly longer than 5 characters; the server tool
`answer_clarification_question`, however, builds the stored response
itself, keyed by the question *text*, with `satisfied` true iff the raw
answer is strictly longer than 10 characters. -/
theorem record_answer_storage :
    (∀ (q : ClarificationQuestion) (a : Str) (i : Nat),
      Clarifier.process_answer q a i =
        { question_id := q.category ++ lit ":" ++ natStr i
          answer := a
          satisfied := decide (5 < (strip a).length) })
    ∧ ∀ (sessions : Sessions) (sid : Str) (now : ℚ) (a : Str)
        (w : WorkflowState),
        sessions sid = some w →
        w.is_timeout now = false →
        w.waiting_for_answer = true →
        w.current_question_index < w.all_questions.length →
        ∃ (st : Server.AnswerStatus) (sessions' : Sessions)
          (w' : WorkflowState),
          Server.answer_clarification_question sessions sid a now
              = Except.ok (st, sessions')
          ∧ sessions' sid = some w'
          ∧ w'.collected_answers = w.collected_answers ++
              [{ question_id := (w.all_questions.getD w.current_question_index
                    { question := [], category := [], priority := 0 }).question
                 answer := a
                 satisfied := decide (10 < a.length) }] := by
  constructor
  · intro q a i
    simp [Clarifier.process_answer]
  · intro sessions sid now a w hs hnt hw hidx
    have h1 : Server.check_timeout sessions sid now = none := by
      simp [Server.check_timeout, hs, hnt]
    simp only [Server.answer_clarification_question, h1, hs]
    rw [if_neg (by simp [hw]), if_neg (Nat.not_le.mpr hidx)]
    by_cases hlast : w.all_questions.length ≤ w.current_question_index + 1
    · rw [if_pos hlast]
      exact ⟨_, _, _, rfl, Server.Sessions.store_self _ _ _, rfl⟩
    · rw [if_neg hlast]
      exact ⟨_, _, _, rfl, Server.Sessions.store_self _ _ _, rfl⟩

/-- The single pending question of the C5 scenario. -/
def pendingQuestion : ClarificationQuestion :=
  { question := lit "What?", category := lit "Goal", priority := 10 }

/-- A session waiting for the answer to `pendingQuestion`. -/
def waitingWorkflow : WorkflowState :=
  { session_id := lit "s"
    user_request := lit "hi"
    all_questions := [pendingQuestion]
    current_question_index := 0
    collected_answers := []
    waiting_for_answer := true
    created_at := 0
    updated_at := 0
    started_at := 0 }

/-- A session map holding only `waitingWorkflow` under id `"s"`. -/
def waitingSessions : Sessions :=
  fun k => if k = lit "s" then some waitingWorkflow else none

/-- Counterexample for C5 as stated: answering `"1234567"` (trimmed length
7 > 5) through the server stores a response keyed by the question text
`"What?"` — not by `"Goal:0"` — with `satisfied = false` (raw length 7 is
not > 10). -/
theorem record_answer_server_counterexample :
    5 < (strip (lit "1234567")).length
    ∧ ((Server.answer_clarification_question waitingSessions (lit "s")
          (lit "1234567") 0).toOption.map
        (fun r => (r.2 (lit "s")).map WorkflowState.collected_answers))
        = some (some [{ question_id := lit "What?"
                        answer := lit "1234567"
                        satisfied := false }])
    ∧ lit "What?" ≠ pendingQuestion.category ++ lit ":" ++ natStr 0 := by
  refine ⟨by decide, ?_, by decide⟩
  have hnt : waitingWorkflow.is_timeout 0 = false := by
    simp [WorkflowState.is_timeout, waitingWorkflow]
  simp only [Server.answer_clarification_question, Server.check_timeout]
  norm_num [waitingSessions, waitingWorkflow, Sessions.store,
    WorkflowState.is_timeout, pendingQuestion, lit]
  exact ⟨_, _, rfl, _, Server.Sessions.store_self _ _ _, rfl⟩

/-- Witness for C5: the server-path characterization applied to the
concrete waiting session. -/
theorem record_answer_storage_witness :
    ∃ (st : Server.AnswerStatus) (sessions' : Sessions) (w' : WorkflowState),
      Server.answer_clarification_question waitingSessions (lit "s")
          (lit "1234567") 0 = Except.ok (st, sessions')
      ∧ sessions' (lit "s") = some w'
      ∧ w'.collected_answers = waitingWorkflow.collected_answers ++
          [{ question_id := (waitingWorkflow.all_questions.getD
                waitingWorkflow.current_question_index
                { question := [], category := [], priority := 0 }).question
             answer := lit "1234567"
             satisfied := decide (10 < (lit "1234567").length) }] :=
  record_answer_storage.2 waitingSessions (lit "s") 0 (lit "1234567")
    waitingWorkflow (by decide)
    (by simp [WorkflowState.is_timeout, waitingWorkflow]) (by decide) (by decide)

/-- C6 (amended): the phase-entry guards actually enforced are:
`assign_experts` requires the phase-0 result (and no pending clarification
question); `check_environment` and `gather_information` require the
phase-1 result; `clarify_user_intent` requires the phase-0 result;
`create_design` requires the phase-0 and phase-1 results only (the phase-2
result is NOT checked) and then, on every call that passes its guard,
raises the `TypeError` of the missing `phase2_result` argument — it never
succeeds; `select_llm` and `execute_task` require the phase-4 result only
(the phase-5 result is NOT checked), and `execute_task` succeeds whenever
it is present. -/
theorem phase_precondition_guards
    (sessions : Sessions) (sid : Str) (w : WorkflowState) (now : ℚ)
    (cache : EnvCache) (env : ApiEnv) (gathered : Phase2Result)
    (generated : Phase3Result) (selection : Phase5Result)
    (hs : sessions sid = some w)
    (hnt : w.is_timeout now = false) :
    (w.phase0_result = none →
      Server.assign_experts sessions sid now
        = Except.error ServerError.phase0_not_completed)
    ∧ (w.phase0_result ≠ none → w.waiting_for_answer = true →
      Server.assign_experts sessions sid now
        = Except.error ServerError.clarification_pending)
    ∧ (w.phase0_result ≠ none → w.waiting_for_answer = false →
      (Server.assign_experts sessions sid now).isOk = true)
    ∧ (w.phase1_result = none →
      Server.check_environment sessions cache sid now env
        = Except.error ServerError.phase1_not_completed)
    ∧ (w.phase1_result ≠ none →
      (Server.check_environment sessions cache sid now env).isOk = true)
    ∧ (w.phase1_result = none →
      Server.gather_information sessions sid now gathered
        = Except.error ServerError.phase1_not_completed)
    ∧ (w.phase1_result ≠ none →
      (Server.gather_information sessions sid now gathered).isOk = true)
    ∧ (w.phase0_result = none →
      Server.clarify_user_intent sessions sid now generated
        = Except.error ServerError.phase0_not_completed)
    ∧ (w.phase0_result = none ∨ w.phase1_result = none →
      Server.create_design sessions sid now
        = Except.error ServerError.previous_phases_not_completed)
    ∧ (w.phase0_result ≠ none → w.phase1_result ≠ none →
      Server.create_design sessions sid now
        = Except.error ServerError.create_design_type_error)
    ∧ (w.phase4_result = none →
      Server.select_llm sessions sid now selection
        = Except.error ServerError.phase4_not_completed)
    ∧ (w.phase4_result = none →
      Server.execute_task sessions sid now
        = Except.error ServerError.design_not_created)
    ∧ (w.phase4_result ≠ none →
      (Server.execute_task sessions sid now).isOk = true) := by
  have hct : Server.check_timeout sessions sid now = none := by
    simp [Server.check_timeout, hs, hnt]
  refine ⟨?_, ?_, ?_, ?_, ?_, ?_, ?_, ?_, ?_, ?_, ?_, ?_, ?_⟩
  · intro h0
    simp [Server.assign_experts, hct, hs, h0]
  · intro h0 hw
    obtain ⟨p0, hp0⟩ := Option.ne_none_iff_exists'.mp h0
    simp [Server.assign_experts, hct, hs, hp0, hw]
  · intro h0 hw
    obtain ⟨p0, hp0⟩ := Option.ne_none_iff_exists'.mp h0
    simp [Server.assign_experts, hct, hs, hp0, hw, Except.isOk, Except.toBool]
  · intro h1
    simp [Server.check_environment, hct, hs, h1]
  · intro h1
    obtain ⟨p1, hp1⟩ := Option.ne_none_iff_exists'.mp h1
    simp [Server.check_environment, hct, hs, hp1, Except.isOk, Except.toBool]
  · intro h1
    simp [Server.gather_information, hct, hs, h1]
  · intro h1
    obtain ⟨p1, hp1⟩ := Option.ne_none_iff_exists'.mp h1
    simp [Server.gather_information, hct, hs, hp1, Except.isOk, Except.toBool]
  · intro h0
    simp [Server.clarify_user_intent, hct, hs, h0]
  · intro h01
    rcases h01 with h0 | h1
    · simp [Server.create_design, hct, hs, h0]
    · simp [Server.create_design, hct, hs, h1]
  · intro h0 h1
    obtain ⟨p0, hp0⟩ := Option.ne_none_iff_exists'.mp h0
    obtain ⟨p1, hp1⟩ := Option.ne_none_iff_exists'.mp h1
    simp [Server.create_design, hct, hs, hp0, hp1]
  · intro h4
    simp [Server.select_llm, hct, hs, h4]
  · intro h4
    simp [Server.execute_task, hct, hs, h4]
  · intro h4
    obtain ⟨p4, hp4⟩ := Option.ne_none_iff_exists'.mp h4
    simp [Server.execute_task, hct, hs, hp4, Except.isOk, Except.toBool]

/-- A fully-clear concrete phase-0 result. -/
def donePhase0 : Phase0Result :=
  { request_type := RequestType.TYPE_1
    clarity_score :=
      { specific_situation := true, purpose_stated := true,
        target_specified := true, background_knowledge := true,
        scope_defined := true }
    complexity_score := none
    confidence := 1
    reasoning := [] }

/-- A concrete phase-1 result. -/
def donePhase1 : Phase1Result :=
  { hierarchy := {}
    experts := []
    processing_mode := ProcessingMode.SINGLE
    llm_used := [lit "claude"]
    zen_mcp_status := [] }

/-- A concrete design document. -/
def doneDesign : DesignDocument :=
  { title := lit "t", quality_level := QualityLevel.LV1_STANDARD,
    sections := [], references := [] }

/-- A session that has completed phases 0, 1 and 4 but has NO phase-2 and
NO phase-5 result. -/
def skippingWorkflow : WorkflowState :=
  { session_id := lit "s"
    user_request := lit "hi"
    phase0_result := some donePhase0
    phase1_result := some donePhase1
    phase4_result := some { design_document := doneDesign }
    created_at := 0
    updated_at := 0
    started_at := 0 }

/-- A session map holding only `skippingWorkflow` under id `"s"`. -/
def skippingSessions : Sessions :=
  fun k => if k = lit "s" then some skippingWorkflow else none

/-- `skippingWorkflow` with a phase-2 result present as well. -/
def fullWorkflow : WorkflowState :=
  { skippingWorkflow with
      phase2_result := some { research_items := [], sources := [] } }

/-- A session map holding only `fullWorkflow` under id `"s"`. -/
def fullSessions : Sessions :=
  fun k => if k = lit "s" then some fullWorkflow else none

/-- Counterexample for C6 as stated: with the phase-5 result absent,
`execute_task` (phase 6) succeeds rather than failing its precondition;
and `create_design` (phase 4) performs no phase-2 precondition check —
with the phase-2 result absent or present alike it raises the same
`TypeError` of the missing `phase2_result` argument, which is not a
precondition failure. -/
theorem phase_precondition_counterexample :
    skippingWorkflow.phase5_result = none
    ∧ (Server.execute_task skippingSessions (lit "s") 0).isOk = true
    ∧ skippingWorkflow.phase2_result = none
    ∧ Server.create_design skippingSessions (lit "s") 0
        = Except.error ServerError.create_design_type_error
    ∧ fullWorkflow.phase2_result ≠ none
    ∧ Server.create_design fullSessions (lit "s") 0
        = Except.error ServerError.create_design_type_error := by
  refine ⟨rfl, ?_, rfl, ?_, by simp [fullWorkflow, skippingWorkflow], ?_⟩ <;>
    norm_num [Server.create_design, Server.execute_task, Server.check_timeout,
      skippingSessions, skippingWorkflow, fullSessions, fullWorkflow,
      WorkflowState.is_timeout, Sessions.store, Except.isOk, Except.toBool]

/-- C7: the environment-snapshot cache never serves an entry past its
5-minute TTL: a lookup whose cached entry is younger than 5 minutes
returns that entry unchanged (same object, same `checked_at`, cache
untouched); a lookup whose entry is 5 minutes old or older evicts it and
recomputes a fresh snapshot stamped `checked_at = now`, which is written
into the cache before being returned. -/
theorem env_cache_respects_ttl
    (cache : EnvCache) (sid : Str) (now : ℚ) (env : ApiEnv)
    (entry : EnvResult) (hc : cache sid = some entry) :
    (now - entry.checked_at < 5 →
      EnvironmentChecker.check_environment cache sid now env = (entry, cache))
    ∧ (5 ≤ now - entry.checked_at →
      (EnvironmentChecker.check_environment cache sid now env).1
          = EnvironmentChecker.compute_snapshot now env
      ∧ (EnvironmentChecker.compute_snapshot now env).checked_at = now
      ∧ (EnvironmentChecker.check_environment cache sid now env).2 sid
          = some (EnvironmentChecker.compute_snapshot now env))
    ∧ (now - (EnvironmentChecker.check_environment cache sid now env).1.checked_at
          < 5
      ∨ (EnvironmentChecker.check_environment cache sid now env).1.checked_at
          = now) := by
  by_cases hfresh : now - entry.checked_at < 5
  · refine ⟨fun _ => ?_, fun h5 => absurd h5 (by linarith), Or.inl ?_⟩
    · simp [EnvironmentChecker.check_environment,
        EnvironmentChecker.get_cached_result, hc, hfresh,
        EnvironmentChecker.cache_ttl]
    · simp [EnvironmentChecker.check_environment,
        EnvironmentChecker.get_cached_result, hc, hfresh,
        EnvironmentChecker.cache_ttl]
  · have hmiss : EnvironmentChecker.check_environment cache sid now env
        = (EnvironmentChecker.compute_snapshot now env,
           EnvironmentChecker.cache_result
             (fun k => if k = sid then none else cache k) sid
             (EnvironmentChecker.compute_snapshot now env)) := by
      simp [EnvironmentChecker.check_environment,
        EnvironmentChecker.get_cached_result, hc, hfresh,
        EnvironmentChecker.cache_ttl]
    refine ⟨fun h => absurd h hfresh, fun _ => ⟨?_, ?_, ?_⟩, Or.inr ?_⟩
    · rw [hmiss]
    · rfl
    · rw [hmiss]
      simp [EnvironmentChecker.cache_result]
    · rw [hmiss]
      rfl

/-- A cached snapshot stamped at minute 0 for session `"s"`. -/
def cachedSnapshot : EnvResult :=
  EnvironmentChecker.compute_snapshot 0
    { anthropic := true, openai := false, gemini := false, grok := false }

/-- An environment-checker cache holding `cachedSnapshot` under `"s"`. -/
def snapshotCache : EnvCache :=
  fun k => if k = lit "s" then some cachedSnapshot else none

/-- Witness for C7: the minute-0 snapshot is served unchanged at minute 4
and replaced by a freshly stamped one at minute 5. -/
theorem env_cache_respects_ttl_witness :
    EnvironmentChecker.check_environment snapshotCache (lit "s") 4
        { anthropic := true, openai := false, gemini := false, grok := false }
      = (cachedSnapshot, snapshotCache)
    ∧ (EnvironmentChecker.check_environment snapshotCache (lit "s") 5
        { anthropic := true, openai := false, gemini := false, grok := false }).1
      = EnvironmentChecker.compute_snapshot 5
          { anthropic := true, openai := false, gemini := false, grok := false } :=
  ⟨(env_cache_respects_ttl snapshotCache (lit "s") 4
      { anthropic := true, openai := false, gemini := false, grok := false }
      cachedSnapshot rfl).1
      (by norm_num [cachedSnapshot, EnvironmentChecker.compute_snapshot]),
   ((env_cache_respects_ttl snapshotCache (lit "s") 5
      { anthropic := true, openai := false, gemini := false, grok := false }
      cachedSnapshot rfl).2.1
      (by norm_num [cachedSnapshot, EnvironmentChecker.compute_snapshot])).1⟩

/-- Layer lists of the assigned experts: one singleton per active layer in
layer order, or the layer-less generic expert when no layer is active. -/
theorem assign_experts_layers (h : HierarchyStructure) :
    (ExpertAssigner.assign_experts h).map Expert.layers
      = (if h.get_active_layers = [] then [[]]
        else h.get_active_layers.map (fun l => [l])) := by
  by_cases h1 : optTruthy h.domain <;> by_cases h2 : optTruthy h.subdomain <;>
  by_cases h3 : optTruthy h.category <;> by_cases h4 : optTruthy h.task <;>
    simp [ExpertAssigner.assign_experts, HierarchyStructure.get_active_layers,
      h1, h2, h3, h4]

/-- C8 (amended): expert assignment produces exactly one expert per active
hierarchy layer (in layer order), or a single generic expert when no layer
is active; the processing mode is `single` iff the complexity total is ≤ 3
or the number of *active layers* is exactly 1 — the mode is computed from
the active-layer count before experts are created, so when no layer is
active the count is 0 and a complexity total ≥ 4 yields `collaborative`
even though exactly one (generic) expert is assigned. -/
theorem expert_assignment_structure (req : Str) (complexity : Nat)
    (llms : Option (List Str)) :
    ((ExpertAssigner.detect_hierarchy req).get_active_layers = [] →
      (ExpertAssigner.assign req complexity llms).experts.map Expert.layers
        = [[]])
    ∧ ((ExpertAssigner.detect_hierarchy req).get_active_layers ≠ [] →
      (ExpertAssigner.assign req complexity llms).experts.map Expert.layers
        = (ExpertAssigner.detect_hierarchy req).get_active_layers.map
            (fun l => [l]))
    ∧ ((ExpertAssigner.assign req complexity llms).processing_mode
          = ProcessingMode.SINGLE
      ↔ complexity ≤ 3
        ∨ (ExpertAssigner.detect_hierarchy req).get_active_layers.length
            = 1) := by
  have hlayers := assign_experts_layers (ExpertAssigner.detect_hierarchy req)
  refine ⟨fun h0 => ?_, fun h0 => ?_, ?_⟩
  · rw [h0] at hlayers
    simp only [if_pos rfl] at hlayers
    simpa [ExpertAssigner.assign, List.map_map, Function.comp] using hlayers
  · rw [if_neg h0] at hlayers
    simpa [ExpertAssigner.assign, List.map_map, Function.comp] using hlayers
  · by_cases hm : complexity ≤ 3
        ∨ (ExpertAssigner.detect_hierarchy req).get_active_layers.length = 1 <;>
      simp [ExpertAssigner.assign, ExpertAssigner.determine_processing_mode,
        hm]

/-- Counterexample for C8 as stated: a request activating no hierarchy
layer with complexity total 4 gets exactly one (generic) expert, yet the
processing mode is `collaborative`, not `single`. -/
theorem processing_mode_counterexample :
    (ExpertAssigner.assign [] 4 none).experts.length = 1
    ∧ (ExpertAssigner.assign [] 4 none).processing_mode
        = ProcessingMode.COLLABORATIVE := by
  constructor <;> rfl

/-- Witness for C8: a request mentioning only a domain keyword has exactly
one active layer, so even at complexity 5 the mode is `single`. -/
theorem expert_assignment_structure_witness :
    (ExpertAssigner.assign (lit "field") 5 none).processing_mode
      = ProcessingMode.SINGLE :=
  (expert_assignment_structure (lit "field") 5 none).2.2.mpr
    (Or.inr (by decide))

/-- The completeness check is always labelled `완성도`. -/
theorem check_completeness_name (r : Str) (ds : Option Nat) :
    (Validator.check_completeness r ds).check_name = lit "완성도" := by
  unfold Validator.check_completeness
  cases ds with
  | none => rfl
  | some n =>
    simp only []
    split <;> rfl

/-- The accuracy check is always labelled `정확도`. -/
theorem check_accuracy_name (r req : Str) :
    (Validator.check_accuracy r req).check_name = lit "정확도" := by
  simp only [Validator.check_accuracy]
  cases hk : List.take 10
      (List.filter (fun w => decide (2 < List.length w)) (splitWs (lower req))) with
  | nil => simp [hk]
  | cons a l =>
    simp only [hk]
    split <;> rfl

/-- The consistency check is always labelled `일관성`. -/
theorem check_consistency_name (r : Str) :
    (Validator.check_consistency r).check_name = lit "일관성" := rfl

/-- The usability check is always labelled `실용성`. -/
theorem check_usability_name (r : Str) :
    (Validator.check_usability r).check_name = lit "실용성" := rfl

/-- The `usability` metric is the usability check's score. -/
theorem metrics_usability (r req : Str) (ds : Option Nat) :
    (Validator.calculate_metrics (Validator.perform_checks r req ds)).usability
      = (Validator.check_usability r).score := by
  have d1 : (lit "완성도" = lit "실용성") = False := eq_false (by decide)
  have d2 : (lit "정확도" = lit "실용성") = False := eq_false (by decide)
  have d3 : (lit "일관성" = lit "실용성") = False := eq_false (by decide)
  simp [Validator.calculate_metrics, Validator.perform_checks, List.find?,
    check_completeness_name, check_accuracy_name, check_consistency_name,
    check_usability_name, d1, d2, d3]

/-- C9 (amended): `overall_score` is the mean of the four check scores,
`confidence` is the mean of the severity-weighted check scores
(critical 1.0, high 0.8, medium 0.6, low 0.4), the overall `passed` flag
holds iff every check passed, and an artifact shorter than 100 characters
with no structural marker fails the usability check with score
`(length/100)·0.9 < 1`; the usability improvement suggestion is emitted
when that score is below the 0.8 threshold (it is *not* emitted for
lengths 89–99, where the score reaches 0.8 despite the failed check). -/
theorem validator_rubric (artifact request : Str) (ds : Option Nat) :
    (Validator.validate_result artifact request ds).quality_metrics.overall_score
        = ((Validator.perform_checks artifact request ds).map
            ValidationCheck.score).sum / 4
    ∧ (Validator.validate_result artifact request ds).quality_metrics.confidence
        = ((Validator.perform_checks artifact request ds).map
            (fun c => c.score * Validator.level_weight c.level)).sum / 4
    ∧ ((Validator.validate_result artifact request ds).validation_result.passed
          = true
        ↔ ∀ c ∈ Validator.perform_checks artifact request ds, c.passed = true)
    ∧ (artifact.length < 100 →
        (hasSub artifact (lit "\n#") || hasSub artifact (lit "\n-")
          || hasSub artifact (lit "\n1.")) = false →
        (Validator.check_usability artifact).passed = false
        ∧ (Validator.check_usability artifact).score
            = (artifact.length : ℚ) / 100 * (9/10)
        ∧ (Validator.check_usability artifact).score < 1
        ∧ ((Validator.check_usability artifact).score < 8/10 →
            Validator.msg_usability ∈
              (Validator.validate_result artifact request ds).improvements)) := by
  refine ⟨?_, ?_, ?_, ?_⟩
  · simp [Validator.validate_result, Validator.calculate_metrics,
      Validator.perform_checks]
  · simp [Validator.validate_result, Validator.calculate_metrics,
      Validator.perform_checks]
  · simp [Validator.validate_result, Validator.create_validation_result,
      List.all_eq_true]
  · intro hlen hstr
    have hus : Validator.check_usability artifact
        = { check_name := lit "실용성", level := ValidationLevel.MEDIUM,
            passed := false,
            score := (artifact.length : ℚ) / 100 * (9/10),
            issues := [lit "결과가 너무 짧음 (최소 100자 필요)",
              lit "구조화된 포맷 부족"] } := by
      simp [Validator.check_usability, hlen, hstr]
    have hcast : (artifact.length : ℚ) < 100 := by exact_mod_cast hlen
    refine ⟨by rw [hus], by rw [hus], by rw [hus]; nlinarith, ?_⟩
    intro hscore
    have hmu := metrics_usability artifact request ds
    rw [hus] at hmu hscore
    simp only [Validator.validate_result, Validator.suggest_improvements, hmu,
      hscore, if_true, List.isEmpty_iff, List.append_eq_nil]
    simp

/-- The 99-character artifact of the C9 counterexample. -/
def longArtifact : Str := List.replicate 99 'a'

/-- Counterexample for C9 as stated: the 99-character structureless
artifact fails the usability check with score 0.891 < 1, yet no usability
improvement suggestion is emitted (the improvements list is only the
affirming message). -/
theorem usability_suggestion_counterexample :
    longArtifact.length < 100
    ∧ (hasSub longArtifact (lit "\n#") || hasSub longArtifact (lit "\n-")
        || hasSub longArtifact (lit "\n1.")) = false
    ∧ (Validator.check_usability longArtifact).passed = false
    ∧ (Validator.check_usability longArtifact).score < 1
    ∧ Validator.msg_usability ∉
        (Validator.validate_result longArtifact (lit "aaa")
          (some 1)).improvements := by
  have hlen : longArtifact.length = 99 := by decide
  have hstr : (hasSub longArtifact (lit "\n#") || hasSub longArtifact (lit "\n-")
      || hasSub longArtifact (lit "\n1.")) = false := by decide
  have hus : Validator.check_usability longArtifact
      = { check_name := lit "실용성", level := ValidationLevel.MEDIUM,
          passed := false, score := (99 : ℚ) / 100 * (9/10),
          issues := [lit "결과가 너무 짧음 (최소 100자 필요)",
            lit "구조화된 포맷 부족"] } := by
    simp [Validator.check_usability, hlen, hstr]
  have hcomp : Validator.check_completeness longArtifact (some 1)
      = { check_name := lit "완성도", level := ValidationLevel.CRITICAL,
          passed := true, score := 1, issues := [] } := by
    have h0 : countNlNl longArtifact = 0 := by decide
    simp [Validator.check_completeness, h0]
    norm_num
  have hacc : Validator.check_accuracy longArtifact (lit "aaa")
      = { check_name := lit "정확도", level := ValidationLevel.HIGH,
          passed := true, score := 1, issues := [] } := by
    have hkw : (splitWs (lower (lit "aaa"))).filter (fun w => 2 < w.length)
        = [lit "aaa"] := by decide
    have hm : hasSub (lower longArtifact) (lit "aaa") = true := by decide
    simp [Validator.check_accuracy, hkw, hm]
    norm_num
  have hpara : splitNlNl longArtifact = [longArtifact] := by decide
  have hcons : Validator.check_consistency longArtifact
      = { check_name := lit "일관성", level := ValidationLevel.MEDIUM,
          passed := false, score := 8/10,
          issues := [lit "문단 구조가 부족함"] } := by
    simp [Validator.check_consistency, hpara, hlen]
    norm_num
  have e1 : (lit "완성도" = lit "정확도") = False := eq_false (by decide)
  have e2 : (lit "완성도" = lit "일관성") = False := eq_false (by decide)
  have e3 : (lit "정확도" = lit "일관성") = False := eq_false (by decide)
  have e4 : (lit "완성도" = lit "실용성") = False := eq_false (by decide)
  have e5 : (lit "정확도" = lit "실용성") = False := eq_false (by decide)
  have e6 : (lit "일관성" = lit "실용성") = False := eq_false (by decide)
  refine ⟨by decide, hstr, by rw [hus], by rw [hus]; norm_num, ?_⟩
  simp only [Validator.validate_result, Validator.perform_checks, hus, hcomp,
    hacc, hcons, Validator.calculate_metrics, Validator.suggest_improvements,
    List.find?, e1, e2, e3, e4, e5, e6, decide_False, eq_self_iff_true,
    decide_True]
  norm_num
  decide

/-- Witness for C9: the usability clause applied to a 50-character
structureless artifact, where the suggestion is emitted. -/
theorem validator_rubric_witness :
    (Validator.check_usability (List.replicate 50 'a')).passed = false
    ∧ (Validator.check_usability (List.replicate 50 'a')).score
        = ((List.replicate 50 'a').length : ℚ) / 100 * (9/10)
    ∧ (Validator.check_usability (List.replicate 50 'a')).score < 1
    ∧ ((Validator.check_usability (List.replicate 50 'a')).score < 8/10 →
        Validator.msg_usability ∈
          (Validator.validate_result (List.replicate 50 'a') (lit "aaa")
            (some 1)).improvements) :=
  (validator_rubric (List.replicate 50 'a') (lit "aaa") (some 1)).2.2.2
    (by decide) (by decide)

/-- C10: calling `analyze_request` with a session id that already exists
builds a brand-new `WorkflowState` holding only the fresh phase-0 result
and stores it under that id, discarding every previously stored phase
result and all clarification progress. -/
theorem analyze_request_resets_session
    (sessions : Sessions) (sid gid req : Str) (now : ℚ)
    (old : WorkflowState)
    (hs : sessions sid = some old) (hsid : sid ≠ []) :
    (Server.analyze_request sessions req (some sid) gid now).1 = sid
    ∧ (Server.analyze_request sessions req (some sid) gid now).2 sid
        = some
          { session_id := sid
            user_request := req
            current_phase := 0
            phase0_result := some (RequestAnalyzer.analyze req false)
            phase1_result := none
            phase1_5_result := none
            phase2_result := none
            phase3_result := none
            phase4_result := none
            phase5_result := none
            phase7_result := none
            all_questions := []
            current_question_index := 0
            collected_answers := []
            waiting_for_answer := false
            created_at := now
            updated_at := now
            started_at := now
            timeout_minutes := 30 } := by
  have hne : sid.isEmpty = false := by
    cases sid with
    | nil => exact absurd rfl hsid
    | cons c cs => rfl
  constructor
  · simp [Server.analyze_request, optTruthy, hne]
  · simp [Server.analyze_request, optTruthy, hne, Sessions.store]

/-- Witness for C10: resetting the phases-0/1/4 session wipes the stored
phase-1 and phase-4 results. -/
theorem analyze_request_resets_session_witness :
    (Server.analyze_request skippingSessions (lit "hello")
        (some (lit "s")) (lit "g") 5).2 (lit "s")
      = some
        { session_id := lit "s"
          user_request := lit "hello"
          current_phase := 0
          phase0_result := some (RequestAnalyzer.analyze (lit "hello") false)
          phase1_result := none
          phase1_5_result := none
          phase2_result := none
          phase3_result := none
          phase4_result := none
          phase5_result := none
          phase7_result := none
          all_questions := []
          current_question_index := 0
          collected_answers := []
          waiting_for_answer := false
          created_at := 5
          updated_at := 5
          started_at := 5
          timeout_minutes := 30 } :=
  (analyze_request_resets_session skippingSessions (lit "s") (lit "g")
    (lit "hello") 5 skippingWorkflow rfl (by decide)).2

/-- Witness for C6: on a session with only phase 0 missing,
`assign_experts` fails with the phase-0 precondition error; on the
phases-0/1/4 session `create_design` raises the missing-argument error and
`execute_task` succeeds although the phase-5 result is absent. -/
theorem phase_precondition_guards_witness :
    Server.assign_experts sampleSessions (lit "s") 0
      = Except.error ServerError.phase0_not_completed
    ∧ Server.create_design skippingSessions (lit "s") 0
        = Except.error ServerError.create_design_type_error
    ∧ (Server.execute_task skippingSessions (lit "s") 0).isOk = true :=
  ⟨(phase_precondition_guards sampleSessions (lit "s") sampleWorkflow 0
      (fun _ => none)
      { anthropic := false, openai := false, gemini := false, grok := false }
      { research_items := [], sources := [] }
      { questions := [], responses := [], clarification_needed := false }
      { selections := [] }
      (by decide) (by norm_num [sampleWorkflow, WorkflowState.is_timeout])).1
      rfl,
   (phase_precondition_guards skippingSessions (lit "s") skippingWorkflow 0
      (fun _ => none)
      { anthropic := false, openai := false, gemini := false, grok := false }
      { research_items := [], sources := [] }
      { questions := [], responses := [], clarification_needed := false }
      { selections := [] }
      (by decide)
      (by norm_num [skippingWorkflow,
        WorkflowState.is_timeout])).2.2.2.2.2.2.2.2.2.1
      (by simp [skippingWorkflow]) (by simp [skippingWorkflow]),
   (phase_precondition_guards skippingSessions (lit "s") skippingWorkflow 0
      (fun _ => none)
      { anthropic := false, openai := false, gemini := false, grok := false }
      { research_items := [], sources := [] }
      { questions := [], responses := [], clarification_needed := false }
      { selections := [] }
      (by decide)
      (by norm_num [skippingWorkflow,
        WorkflowState.is_timeout])).2.2.2.2.2.2.2.2.2.2.2.2
      (by simp [skippingWorkflow])⟩

/-- Witness for C3: a session started at minute 0 with the default
30-minute budget, called at minute 31. -/
theorem timed_out_session_rejects_phase_calls_witness :
    Server.execute_task sampleSessions (lit "s") 31
      = Except.error ServerError.session_timeout :=
  (timed_out_session_rejects_phase_calls sampleSessions (lit "s")
    sampleWorkflow 31 31 [] (fun _ => none)
    { anthropic := false, openai := false, gemini := false, grok := false }
    { research_items := [], sources := [] }
    { questions := [], responses := [], clarification_needed := false }
    { selections := [] }
    (by decide) (by norm_num [sampleWorkflow]) le_rfl).2.2.2.2.2.2.2.1
